import Mathlib

/-!
Verification of the authentication core of the Airdrop Journal backend.

The definitions below are a shallow embedding of the authentication
subsystem: the user document schema and its instance/static methods
(`src/models/User.js`), the auth routes (signup/login/forgot-password/
reset-password/verify-email and friends) and the `protect` middleware.
Timestamps are naturals counting milliseconds since the epoch, matching
`Date.now()`; JWT `iat` values are naturals counting whole seconds, as
produced by `jwt.sign`. External collaborators (bcrypt comparison, sha256,
`crypto.randomBytes`, the signing secret) are passed in as explicit
function or data parameters.
-/

namespace AirdropAuth

/-- The authentication-relevant fields of a stored user document
(schema of `src/models/User.js`). `password` holds the stored digest. -/
structure UserState where
  email : String
  password : String
  isActive : Bool
  isEmailVerified : Bool
  loginAttempts : Nat
  lockUntil : Option Nat
  passwordChangedAt : Option Nat
  passwordResetToken : Option String
  passwordResetExpire : Option Nat
  emailVerificationToken : Option String
  emailVerificationExpire : Option Nat
  lastLoginAt : Option Nat
deriving DecidableEq

/-- An HTTP response as far as the claims care: status code and message. -/
structure HttpResponse where
  status : Nat
  message : String
deriving DecidableEq

/-- Virtual `isLocked` of the user schema: `lockUntil` is set and
strictly in the future (the source compares `this.lockUntil > Date.now()`). -/
def isLocked (now : Nat) (u : UserState) : Bool :=
  match u.lockUntil with
  | some t => decide (now < t)
  | none => false

/-- Method `incLoginAttempts` of the user schema: if a previous lock has expired
(`lockUntil < Date.now()`), unset the lock and restart the count at 1;
otherwise increment the count, additionally setting a 2-hour lock when the
count reaches at least 5 and the account is not currently locked. -/
def incLoginAttempts (now : Nat) (u : UserState) : UserState :=
  if (match u.lockUntil with | some t => decide (t < now) | none => false) then
    { u with lockUntil := none, loginAttempts := 1 }
  else
    let bumped := { u with loginAttempts := u.loginAttempts + 1 }
    if 5 ≤ u.loginAttempts + 1 ∧ isLocked now u = false then
      { bumped with lockUntil := some (now + 2 * 60 * 60 * 1000) }
    else
      bumped

/-- Method `resetLoginAttempts` of the user schema: an unset update of both counters
(an unset numeric field reads back as the schema default 0). -/
def resetLoginAttempts (u : UserState) : UserState :=
  { u with loginAttempts := 0, lockUntil := none }

/-- Method `changedPasswordAfter` of the user schema: when `passwordChangedAt`
is set, compare the JWT timestamp (seconds) against
`parseInt(passwordChangedAt.getTime() / 1000)`. -/
def changedPasswordAfter (u : UserState) (jwtTimestamp : Nat) : Bool :=
  match u.passwordChangedAt with
  | some c => decide (jwtTimestamp < c / 1000)
  | none => false

/-- One hexadecimal digit, as produced by the Node buffer hex encoding. -/
def hexDigit (n : Nat) : Char :=
  if n = 0 then ('0') else if n = 1 then ('1') else if n = 2 then ('2')
  else if n = 3 then ('3') else if n = 4 then ('4') else if n = 5 then ('5')
  else if n = 6 then ('6') else if n = 7 then ('7') else if n = 8 then ('8')
  else if n = 9 then ('9') else if n = 10 then ('a') else if n = 11 then ('b')
  else if n = 12 then ('c') else if n = 13 then ('d') else if n = 14 then ('e')
  else ('f')

/-- Two hex digits for one byte. -/
def byteToHex (b : Nat) : List Char :=
  [hexDigit (b / 16 % 16), hexDigit (b % 16)]

/-- Hex encoding of a byte list, as the Node buffer toString with hex does. -/
def bytesToHex (bs : List Nat) : String :=
  String.mk (bs.flatMap byteToHex)

/-- Method `createPasswordResetToken` of the user schema: hex-encode the 32
random bytes, store only the sha256 of the plaintext together with an
expiry of now plus `PASSWORD_RESET_EXPIRE` minutes (configuration,
documented as 10 minutes), and return the plaintext. `sha256` is the
hash collaborator, `randomBytes` the output of `crypto.randomBytes`. -/
def createPasswordResetToken (sha256 : String → String) (randomBytes : List Nat)
    (resetExpireMinutes : Nat) (now : Nat) (u : UserState) : String × UserState :=
  let resetToken := bytesToHex randomBytes
  (resetToken,
   { u with passwordResetToken := some (sha256 resetToken),
            passwordResetExpire := some (now + resetExpireMinutes * 60 * 1000) })

/-- Method `createEmailVerificationToken` of the user schema: same mechanism
with a hard-coded expiry of now plus 24 hours. -/
def createEmailVerificationToken (sha256 : String → String) (randomBytes : List Nat)
    (now : Nat) (u : UserState) : String × UserState :=
  let verificationToken := bytesToHex randomBytes
  (verificationToken,
   { u with emailVerificationToken := some (sha256 verificationToken),
            emailVerificationExpire := some (now + 24 * 60 * 60 * 1000) })

/-- Failure message returned by `getAuthenticated` when no active user
matches the email. -/
def userNotFoundMsg : String := "User not found"

/-- Failure message returned by `getAuthenticated` when the account is
locked. -/
def accountLockedMsg : String :=
  "Account temporarily locked due to too many failed login attempts"

/-- Failure message returned by `getAuthenticated` on a wrong password. -/
def invalidCredentialsMsg : String := "Invalid credentials"

/-- Success message of the login route. -/
def loggedInMsg : String := "Logged in successfully"

/-- Failure message of the forgot-password route when no active user has
the requested email. -/
def noUserEmailMsg : String := "There is no user with that email address"

/-- Success message of the forgot-password route. -/
def resetSentMsg : String := "Password reset token sent to email!"

/-- Failure message of the reset-password and verify-email routes when the
token lookup fails. -/
def tokenInvalidMsg : String := "Token is invalid or has expired"

/-- Success message of the reset-password route. -/
def passwordResetOkMsg : String := "Password reset successfully"

/-- Success message of the verify-email route. -/
def emailVerifiedMsg : String := "Email verified successfully!"

/-- Result of `userSchema.statics.getAuthenticated`: the `{user, reason}`
pair handed to the route, plus the user document as persisted by the
attempt (`none` when no document was touched). -/
structure AuthResult where
  user : Option UserState
  reason : Option String
  saved : Option UserState
deriving DecidableEq

/-- Lookup of an active user by email (`User.findOne` with the email and
the active flag), as used by the login and forgot-password routes. -/
def findActiveByEmail (store : List UserState) (email : String) : Option UserState :=
  store.find? (fun u => u.email == email && u.isActive)

/-- The body of `getAuthenticated` after the lookup found a user:
locked check first, then the bcrypt comparison (`verify`), with
`resetLoginAttempts`/`lastLoginAt` on success and `incLoginAttempts` on
mismatch. -/
def authenticateUser (verify : String → String → Bool) (now : Nat)
    (u : UserState) (password : String) : AuthResult :=
  if isLocked now u then
    ⟨none, some accountLockedMsg, some u⟩
  else if verify password u.password then
    let u1 := if 0 < u.loginAttempts then resetLoginAttempts u else u
    let u2 := { u1 with lastLoginAt := some now }
    ⟨some u2, none, some u2⟩
  else
    ⟨none, some invalidCredentialsMsg, some (incLoginAttempts now u)⟩

/-- Static method `getAuthenticated` of the user schema: find an active
user by email, then authenticate. -/
def getAuthenticated (verify : String → String → Bool) (now : Nat)
    (store : List UserState) (email password : String) : AuthResult :=
  match findActiveByEmail store email with
  | none => ⟨none, some userNotFoundMsg, none⟩
  | some u => authenticateUser verify now u password

/-- Route `POST /login`: 401 with `result.reason` when no user comes back,
otherwise 200 via `createSendToken`. -/
def loginRoute (verify : String → String → Bool) (now : Nat)
    (store : List UserState) (email password : String) : HttpResponse :=
  let result := getAuthenticated verify now store email password
  match result.user with
  | none => ⟨401, result.reason.getD ("")⟩
  | some _ => ⟨200, loggedInMsg⟩

/-- Route `POST /forgot-password`: 404 when no active user has the email,
otherwise issue a reset token, save, and answer 200. The second component
is the user document as saved (none when nothing was written). -/
def forgotPasswordRoute (sha256 : String → String) (randomBytes : List Nat)
    (resetExpireMinutes : Nat) (now : Nat) (store : List UserState)
    (email : String) : HttpResponse × Option UserState :=
  match findActiveByEmail store email with
  | none => (⟨404, noUserEmailMsg⟩, none)
  | some u =>
    let issued := createPasswordResetToken sha256 randomBytes resetExpireMinutes now u
    (⟨200, resetSentMsg⟩, some issued.2)

/-- The `findOne` filter of `PATCH /reset-password/:token`: stored reset
hash equals the sha256 of the presented plaintext, expiry strictly in the
future, account active. -/
def resetTokenMatches (sha256 : String → String) (now : Nat)
    (u : UserState) (plain : String) : Bool :=
  (match u.passwordResetToken with | some h => h == sha256 plain | none => false)
  && (match u.passwordResetExpire with | some e => decide (now < e) | none => false)
  && u.isActive

/-- Route `PATCH /reset-password/:token`: look the user up by hashed token,
clear both reset fields, store the new password hash; the pre-save hook
records `passwordChangedAt = Date.now() - 1000` because the password was
modified on an existing document. `hashPw` is the bcrypt hashing
collaborator. -/
def resetPasswordRoute (sha256 hashPw : String → String) (now : Nat)
    (store : List UserState) (plainToken newPassword : String) :
    HttpResponse × Option UserState :=
  match store.find? (fun u => resetTokenMatches sha256 now u plainToken) with
  | none => (⟨400, tokenInvalidMsg⟩, none)
  | some u =>
    let u' := { u with password := hashPw newPassword,
                       passwordResetToken := none,
                       passwordResetExpire := none,
                       passwordChangedAt := some (now - 1000) }
    (⟨200, passwordResetOkMsg⟩, some u')

/-- The `findOne` filter of `POST /verify-email/:token`. -/
def verifyTokenMatches (sha256 : String → String) (now : Nat)
    (u : UserState) (plain : String) : Bool :=
  (match u.emailVerificationToken with | some h => h == sha256 plain | none => false)
  && (match u.emailVerificationExpire with | some e => decide (now < e) | none => false)
  && u.isActive

/-- Route `POST /verify-email/:token`: look the user up by hashed token, set
`isEmailVerified`, clear both verification fields. -/
def verifyEmailRoute (sha256 : String → String) (now : Nat)
    (store : List UserState) (plainToken : String) :
    HttpResponse × Option UserState :=
  match store.find? (fun u => verifyTokenMatches sha256 now u plainToken) with
  | none => (⟨400, tokenInvalidMsg⟩, none)
  | some u =>
    let u' := { u with isEmailVerified := true,
                       emailVerificationToken := none,
                       emailVerificationExpire := none }
    (⟨200, emailVerifiedMsg⟩, some u')

/-- The claims carried by a JWT that matter here: subject id and `iat`
in whole seconds. -/
structure JwtPayload where
  userId : Nat
  iat : Nat
deriving DecidableEq

/-- Token issuance: `jwt.sign` sets `iat` to the whole-second part of the
signing time. -/
def generateAuthToken (nowMs : Nat) (userId : Nat) : JwtPayload :=
  ⟨userId, nowMs / 1000⟩

/-- Outcome of steps 1–2 of the `protect` middleware (token extraction
and `jwt.verify`), which live in external libraries: either no token was
presented, or verification threw `JsonWebTokenError`/`TokenExpiredError`,
or it returned a decoded payload. -/
inductive TokenCheck where
  | missing
  | invalidSignature
  | expired
  | valid (payload : JwtPayload)
deriving DecidableEq

/-- Outcome of the `protect` middleware: an error response, or the
request proceeds with `req.user` set. -/
inductive ProtectResult where
  | reject (status : Nat) (message : String)
  | grant (user : UserState)
deriving DecidableEq

/-- Message of `protect` when no token is presented. -/
def notLoggedInMsg : String := "You are not logged in! Please log in to get access."

/-- Message of `protect` on `JsonWebTokenError`. -/
def invalidTokenMsg : String := "Invalid token. Please log in again!"

/-- Message of `protect` on `TokenExpiredError`. -/
def expiredTokenMsg : String := "Your token has expired! Please log in again."

/-- Message of `protect` when the subject no longer exists. -/
def userGoneMsg : String := "The user belonging to this token does no longer exist."

/-- Message of `protect` when the subject is deactivated. -/
def deactivatedMsg : String := "Your account has been deactivated. Please contact support."

/-- Message of `protect` when the password changed after token issuance. -/
def recentlyChangedMsg : String := "User recently changed password! Please log in again."

/-- The `protect` middleware (steps 3–5 after token verification):
subject must still exist, must be active, and must not have changed the
password after the token was issued. `lookupById` stands for
`User.findById`. -/
def protect (lookupById : Nat → Option UserState) (check : TokenCheck) : ProtectResult :=
  match check with
  | .missing => .reject 401 notLoggedInMsg
  | .invalidSignature => .reject 401 invalidTokenMsg
  | .expired => .reject 401 expiredTokenMsg
  | .valid p =>
    match lookupById p.userId with
    | none => .reject 401 userGoneMsg
    | some u =>
      if u.isActive = false then .reject 401 deactivatedMsg
      else if changedPasswordAfter u p.iat then .reject 401 recentlyChangedMsg
      else .grant u

/-- The pre-save hook applied by `PATCH /update-password` (and any other
save of an existing document with a modified password): re-hash and
record `passwordChangedAt = Date.now() - 1000`. -/
def updatePasswordSave (hashPw : String → String) (saveNow : Nat)
    (newPassword : String) (u : UserState) : UserState :=
  { u with password := hashPw newPassword,
           passwordChangedAt := some (saveNow - 1000) }

/-- Modelled from the spec: `userSchema.methods.comparePassword` delegates
to `bcrypt.compare` of the external bcryptjs library, whose source is not
part of this repository. Section 4.1 of the specification describes the
verify step of the hasher as a total boolean function in which a malformed
stored digest can match no plaintext: we model it by a well-formedness
predicate on digests and a match predicate that is only consulted on
well-formed digests. -/
def comparePassword (wellFormed : String → Bool) (digestMatch : String → String → Bool)
    (candidate stored : String) : Bool :=
  wellFormed stored && digestMatch candidate stored

/-- A user record with every optional field clear, used to build the
concrete instances in the witnesses below. -/
def baseUser : UserState :=
  { email := "user@example.com"
    password := "digest"
    isActive := true
    isEmailVerified := false
    loginAttempts := 0
    lockUntil := none
    passwordChangedAt := none
    passwordResetToken := none
    passwordResetExpire := none
    emailVerificationToken := none
    emailVerificationExpire := none
    lastLoginAt := none }

/-- Concrete hash stand-in used by witnesses: prefix the input, so the
hash of distinct strings stays distinct and nothing is the identity. -/
def tagHash (s : String) : String := ("hash-" : String) ++ s

/-!
Claim theorems.
-/

/-- C1, counterexample. The claim says the forgot-password operation
responds with HTTP 200 for every email input, whether or not an active
account with that email exists. Against an empty user store the route
answers 404 with a message that names the missing account, so the claim
fails: the response status is 404, not 200. -/
theorem claim_C1_counterexample :
    (forgotPasswordRoute tagHash [0] 10 1000 [] ("nobody@example.com")).1.status = 404 ∧
    (404 : Nat) ≠ 200 := by
  exact ⟨rfl, by decide⟩

/-- C1, amended. The forgot-password route answers 200 and stores a fresh
reset-token hash and expiry only when an active account with the email
exists; when none exists it answers 404 with the message that there is no
user with that email address (so the response does reveal whether the
account exists). -/
theorem claim_C1 (sha256 : String → String) (randomBytes : List Nat)
    (resetExpireMinutes now : Nat) (store : List UserState) (email : String) :
    (findActiveByEmail store email = none →
      forgotPasswordRoute sha256 randomBytes resetExpireMinutes now store email =
        (⟨404, noUserEmailMsg⟩, none)) ∧
    (∀ u, findActiveByEmail store email = some u →
      forgotPasswordRoute sha256 randomBytes resetExpireMinutes now store email =
        (⟨200, resetSentMsg⟩,
         some { u with passwordResetToken := some (sha256 (bytesToHex randomBytes)),
                       passwordResetExpire := some (now + resetExpireMinutes * 60 * 1000) })) := by
  constructor
  · intro h
    simp [forgotPasswordRoute, h]
  · intro u h
    simp [forgotPasswordRoute, h, createPasswordResetToken]

/-- Witness for C1 at a concrete store containing one active user, plus
the empty-store branch. -/
theorem claim_C1_witness :
    forgotPasswordRoute tagHash [7] 10 1000 [baseUser] baseUser.email =
      (⟨200, resetSentMsg⟩,
       some { baseUser with passwordResetToken := some (tagHash (bytesToHex [7])),
                            passwordResetExpire := some (1000 + 10 * 60 * 1000) }) ∧
    forgotPasswordRoute tagHash [7] 10 1000 [] baseUser.email =
      (⟨404, noUserEmailMsg⟩, none) :=
  ⟨(claim_C1 tagHash [7] 10 1000 [baseUser] baseUser.email).2 baseUser (by decide),
   (claim_C1 tagHash [7] 10 1000 [] baseUser.email).1 (by decide)⟩

/-- C2, counterexample. The claim says a login attempt with an unknown
email and one with a known email but wrong password produce the same
InvalidCredentials failure message. In the code `getAuthenticated`
returns the reason string `User not found` in the first case and
`Invalid credentials` in the second, and the login route forwards the
reason verbatim, so the two failures are distinguishable. -/
theorem claim_C2_counterexample :
    (getAuthenticated (fun p h => p == h) 0 [baseUser]
        ("nobody@example.com") ("digest")).reason = some userNotFoundMsg ∧
    (getAuthenticated (fun p h => p == h) 0 [baseUser]
        baseUser.email ("wrong")).reason = some invalidCredentialsMsg ∧
    userNotFoundMsg ≠ invalidCredentialsMsg := by
  exact ⟨rfl, rfl, by decide⟩

/-- C2, amended. The two failure reasons are not collapsed: a login with
an email that matches no active account fails with the reason string
`User not found`, while a login with a correct email but wrong password
on an unlocked account fails with `Invalid credentials`; a locked account
fails with the account-locked message. All three messages are pairwise
distinct, so the login response reveals whether the account exists. -/
theorem claim_C2 (verify : String → String → Bool) (now : Nat)
    (store : List UserState) (email password : String) :
    (findActiveByEmail store email = none →
      (getAuthenticated verify now store email password).reason = some userNotFoundMsg) ∧
    (∀ u, findActiveByEmail store email = some u → isLocked now u = false →
      verify password u.password = false →
      (getAuthenticated verify now store email password).reason = some invalidCredentialsMsg) ∧
    (∀ u, findActiveByEmail store email = some u → isLocked now u = true →
      (getAuthenticated verify now store email password).reason = some accountLockedMsg) ∧
    userNotFoundMsg ≠ invalidCredentialsMsg ∧
    accountLockedMsg ≠ invalidCredentialsMsg ∧
    accountLockedMsg ≠ userNotFoundMsg := by
  refine ⟨?_, ?_, ?_, by decide, by decide, by decide⟩
  · intro h
    simp [getAuthenticated, h]
  · intro u h hu hv
    simp [getAuthenticated, h, authenticateUser, hu, hv]
  · intro u h hu
    simp [getAuthenticated, h, authenticateUser, hu]

/-- Witness for C2 at a concrete store: unknown email, then wrong
password on an unlocked account with two prior failed attempts. -/
theorem claim_C2_witness :
    (getAuthenticated (fun p h => p == h) 5 [{ baseUser with loginAttempts := 2 }]
        ("ghost@example.com") ("digest")).reason = some userNotFoundMsg ∧
    (getAuthenticated (fun p h => p == h) 5 [{ baseUser with loginAttempts := 2 }]
        baseUser.email ("wrong")).reason = some invalidCredentialsMsg :=
  ⟨(claim_C2 (fun p h => p == h) 5 [{ baseUser with loginAttempts := 2 }]
      ("ghost@example.com") ("digest")).1 (by decide),
   (claim_C2 (fun p h => p == h) 5 [{ baseUser with loginAttempts := 2 }]
      baseUser.email ("wrong")).2.1 { baseUser with loginAttempts := 2 }
      (by decide) (by decide) (by decide)⟩

/-- Reachability invariant of the lockout state: whenever `lockUntil` is
set, at least five failed attempts have been counted. It holds for fresh
accounts (no lock) and is preserved by every lockout transition; it
justifies the attempt-count hypothesis of the C3 theorem. -/
def lockCountInv (u : UserState) : Prop :=
  ∀ t, u.lockUntil = some t → 5 ≤ u.loginAttempts

/-- Preservation: a failed attempt keeps the lockout invariant, because a
lock is only set together with a count of at least five. -/
theorem lockCountInv_incLoginAttempts (now : Nat) (u : UserState)
    (h : lockCountInv u) : lockCountInv (incLoginAttempts now u) := by
  intro t
  unfold incLoginAttempts
  split
  · intro ht
    simp at ht
  · split
    next hc =>
      intro _
      simp only []
      omega
    next hc =>
      intro ht
      have h5 := h t ht
      simp only []
      omega

/-- Preservation: a successful attempt clears the lock, so the lockout
invariant holds vacuously afterwards. -/
theorem lockCountInv_resetLoginAttempts (u : UserState) :
    lockCountInv (resetLoginAttempts u) := by
  intro t ht
  simp [resetLoginAttempts] at ht

/-- Preservation: whatever document `authenticateUser` persists satisfies
the lockout invariant when its input did. -/
theorem lockCountInv_authenticateUser (verify : String → String → Bool)
    (now : Nat) (u : UserState) (password : String) (h : lockCountInv u) :
    ∀ v, (authenticateUser verify now u password).saved = some v → lockCountInv v := by
  intro v hv
  unfold authenticateUser at hv
  split at hv
  · simp only [Option.some.injEq] at hv
    exact hv ▸ h
  · split at hv
    · by_cases h0 : 0 < u.loginAttempts
      · simp only [h0, if_true, Option.some.injEq] at hv
        subst hv
        intro t ht
        simp [resetLoginAttempts] at ht
      · simp only [h0, if_false, Option.some.injEq] at hv
        subst hv
        intro t ht
        exact h t ht
    · simp only [Option.some.injEq] at hv
      exact hv ▸ lockCountInv_incLoginAttempts now u h

/-- C3, confirmed. For an account whose `lockUntil` is strictly in the
future, login fails with the account-locked reason and does not consult
the password check: both the verify collaborator and the presented
password are universally quantified and the outcome does not depend on
them, so even a correct password is rejected. At or after `lockUntil`, a
correct-password login succeeds, resets the failed-attempt count to 0 and
clears `lockUntil`. The hypothesis that at least five failed attempts
were counted is the reachability invariant `lockCountInv` proved above
(a lock is only ever set together with such a count). -/
theorem claim_C3 (verify : String → String → Bool) (now t : Nat)
    (store : List UserState) (email password : String) (u : UserState)
    (hfind : findActiveByEmail store email = some u)
    (hlock : u.lockUntil = some t) (hatt : 5 ≤ u.loginAttempts) :
    (now < t →
      getAuthenticated verify now store email password =
        ⟨none, some accountLockedMsg, some u⟩) ∧
    (t ≤ now → verify password u.password = true →
      getAuthenticated verify now store email password =
        ⟨some { resetLoginAttempts u with lastLoginAt := some now }, none,
         some { resetLoginAttempts u with lastLoginAt := some now }⟩ ∧
      ({ resetLoginAttempts u with lastLoginAt := some now }).loginAttempts = 0 ∧
      ({ resetLoginAttempts u with lastLoginAt := some now }).lockUntil = none) := by
  constructor
  · intro h
    have hl : isLocked now u = true := by
      simp [isLocked, hlock, h]
    simp [getAuthenticated, hfind, authenticateUser, hl]
  · intro h hv
    have hl : isLocked now u = false := by
      simp [isLocked, hlock]
      omega
    have h0 : 0 < u.loginAttempts := by omega
    refine ⟨?_, rfl, rfl⟩
    simp [getAuthenticated, hfind, authenticateUser, hl, hv, h0]

/-- A concrete locked account: six counted failures, locked until time
10000. -/
def lockedUser : UserState :=
  { baseUser with loginAttempts := 6, lockUntil := some 10000 }

/-- Witness for C3: the locked account rejects a correct password at time
5, and accepts it at time 20000, coming out with a cleared lockout
state. -/
theorem claim_C3_witness :
    getAuthenticated (fun p h => p == h) 5 [lockedUser] baseUser.email ("digest") =
      ⟨none, some accountLockedMsg, some lockedUser⟩ ∧
    getAuthenticated (fun p h => p == h) 20000 [lockedUser] baseUser.email ("digest") =
      ⟨some { resetLoginAttempts lockedUser with lastLoginAt := some 20000 }, none,
       some { resetLoginAttempts lockedUser with lastLoginAt := some 20000 }⟩ :=
  ⟨(claim_C3 (fun p h => p == h) 5 10000 [lockedUser]
      baseUser.email ("digest") lockedUser (by decide) (by decide) (by decide)).1 (by decide),
   ((claim_C3 (fun p h => p == h) 20000 10000 [lockedUser]
      baseUser.email ("digest") lockedUser (by decide) (by decide) (by decide)).2
      (by decide) (by decide)).1⟩

/-- Amended failed-attempt transition, written from the amended C4 claim:
an expired lock restarts the count at 1 and clears the lock; otherwise
the count is incremented, and the two-hour lock is installed only when
the incremented count is at least five AND the account is not currently
locked (an already-locked account keeps its existing `lockUntil`). -/
def onFailedAttemptAmended (now : Nat) (u : UserState) : UserState :=
  if (match u.lockUntil with | some t => decide (t < now) | none => false) then
    { u with loginAttempts := 1, lockUntil := none }
  else
    { u with loginAttempts := u.loginAttempts + 1,
             lockUntil := if 5 ≤ u.loginAttempts + 1 ∧ isLocked now u = false then
                            some (now + 2 * 60 * 60 * 1000)
                          else u.lockUntil }

/-- C4, counterexample. The claim says that whenever the incremented
count reaches the threshold of 5 the lock is set to now plus two hours.
Take an account with four counted attempts whose `lockUntil` (10000000)
is still in the future at now = 1000: the failed attempt increments the
count to 5, yet the code leaves `lockUntil` at 10000000 instead of
setting it to 1000 + 2 h = 7201000, because the source guards the update
with the not-currently-locked check that the claim omits. -/
theorem claim_C4_counterexample :
    (incLoginAttempts 1000
        { baseUser with loginAttempts := 4, lockUntil := some 10000000 }).loginAttempts = 5 ∧
    (incLoginAttempts 1000
        { baseUser with loginAttempts := 4, lockUntil := some 10000000 }).lockUntil
      = some 10000000 ∧
    (10000000 : Nat) ≠ 1000 + 2 * 60 * 60 * 1000 := by
  exact ⟨rfl, rfl, by decide⟩

/-- C4, amended. The failed-attempt transition of `incLoginAttempts`
equals the amended transition: expired lock restarts the count at 1 and
clears `lockUntil`; otherwise the count is incremented by 1 and the
two-hour lock is installed exactly when the incremented count is at
least 5 and the account is not currently locked. -/
theorem claim_C4 (now : Nat) (u : UserState) :
    incLoginAttempts now u = onFailedAttemptAmended now u := by
  unfold incLoginAttempts onFailedAttemptAmended
  split
  · rfl
  · split
    next hc => simp [hc]
    next hc => simp [hc]

/-- C5, confirmed. Each token kind lives in a single optional field of
the user document, so at most one is outstanding per account. Issuing a
new token of a kind overwrites the stored hash and expiry of that kind,
so the previous plaintext no longer matches (whenever its hash differs
from the new one); and a successful consumption clears the stored hash
and expiry, so presenting the same plaintext again fails with the
invalid-or-expired 400 response. Both the password-reset and the
email-verification kind are covered. -/
theorem claim_C5 (sha256 hashPw : String → String) (randomBytes : List Nat)
    (resetExpireMinutes now now2 : Nat) (store : List UserState) (u' : UserState)
    (u : UserState) (oldPlain plain newPassword : String) :
    ((createPasswordResetToken sha256 randomBytes resetExpireMinutes now u).2.passwordResetToken
        = some (sha256 (bytesToHex randomBytes)) ∧
     (sha256 oldPlain ≠ sha256 (bytesToHex randomBytes) →
       resetTokenMatches sha256 now2
         (createPasswordResetToken sha256 randomBytes resetExpireMinutes now u).2 oldPlain
         = false)) ∧
    ((createEmailVerificationToken sha256 randomBytes now u).2.emailVerificationToken
        = some (sha256 (bytesToHex randomBytes)) ∧
     (sha256 oldPlain ≠ sha256 (bytesToHex randomBytes) →
       verifyTokenMatches sha256 now2
         (createEmailVerificationToken sha256 randomBytes now u).2 oldPlain = false)) ∧
    (resetPasswordRoute sha256 hashPw now store plain newPassword
        = (⟨200, passwordResetOkMsg⟩, some u') →
      u'.passwordResetToken = none ∧
      resetPasswordRoute sha256 hashPw now2 [u'] plain newPassword
        = (⟨400, tokenInvalidMsg⟩, none)) ∧
    (verifyEmailRoute sha256 now store plain = (⟨200, emailVerifiedMsg⟩, some u') →
      u'.emailVerificationToken = none ∧
      verifyEmailRoute sha256 now2 [u'] plain = (⟨400, tokenInvalidMsg⟩, none)) := by
  have hres : ∀ hne : sha256 oldPlain ≠ sha256 (bytesToHex randomBytes),
      (sha256 (bytesToHex randomBytes) == sha256 oldPlain) = false := by
    intro hne
    simpa [beq_eq_false_iff_ne] using (Ne.symm hne)
  refine ⟨⟨rfl, ?_⟩, ⟨rfl, ?_⟩, ?_, ?_⟩
  · intro hne
    simp [resetTokenMatches, createPasswordResetToken, hres hne]
  · intro hne
    simp [verifyTokenMatches, createEmailVerificationToken, hres hne]
  · intro hroute
    unfold resetPasswordRoute at hroute
    cases hfind : store.find? (fun v => resetTokenMatches sha256 now v plain) with
    | none =>
      rw [hfind] at hroute
      simp [tokenInvalidMsg, passwordResetOkMsg] at hroute
    | some w =>
      rw [hfind] at hroute
      simp only [Prod.mk.injEq, Option.some.injEq] at hroute
      obtain ⟨-, hu'⟩ := hroute
      subst hu'
      refine ⟨rfl, ?_⟩
      simp [resetPasswordRoute, resetTokenMatches, List.find?]
  · intro hroute
    unfold verifyEmailRoute at hroute
    cases hfind : store.find? (fun v => verifyTokenMatches sha256 now v plain) with
    | none =>
      rw [hfind] at hroute
      simp [tokenInvalidMsg, emailVerifiedMsg] at hroute
    | some w =>
      rw [hfind] at hroute
      simp only [Prod.mk.injEq, Option.some.injEq] at hroute
      obtain ⟨-, hu'⟩ := hroute
      subst hu'
      refine ⟨rfl, ?_⟩
      simp [verifyEmailRoute, verifyTokenMatches, List.find?]

/-- A concrete account holding an outstanding reset token (hash of tok)
and an outstanding verification token (hash of vtok). -/
def tokenUser : UserState :=
  { baseUser with passwordResetToken := some (tagHash ("tok")),
                  passwordResetExpire := some 100,
                  emailVerificationToken := some (tagHash ("vtok")),
                  emailVerificationExpire := some 200 }

/-- The account after the reset token tok has been consumed at time 50
with the identity hasher standing in for bcrypt. -/
def tokenUserConsumed : UserState :=
  { tokenUser with password := ("NewPw1!" : String),
                   passwordResetToken := none,
                   passwordResetExpire := none,
                   passwordChangedAt := some (50 - 1000) }

/-- Witness for C5: after issuing a fresh reset token over the stored
one, the old plaintext no longer matches; and after consuming tok, a
second presentation of tok gets the 400 invalid-or-expired response. -/
theorem claim_C5_witness :
    resetTokenMatches tagHash 60
        (createPasswordResetToken tagHash [0] 10 50 tokenUser).2 ("tok") = false ∧
    (tokenUserConsumed.passwordResetToken = none ∧
     resetPasswordRoute tagHash (fun s => s) 60 [tokenUserConsumed] ("tok") ("NewPw1!")
       = (⟨400, tokenInvalidMsg⟩, none)) :=
  ⟨(claim_C5 tagHash (fun s => s) [0] 10 50 60 [tokenUser] tokenUserConsumed tokenUser
      ("tok") ("tok") ("NewPw1!")).1.2 (by decide),
   (claim_C5 tagHash (fun s => s) [0] 10 50 60 [tokenUser] tokenUserConsumed tokenUser
      ("tok") ("tok") ("NewPw1!")).2.2.1 (by decide)⟩

/-- A concrete account whose password was last changed at millisecond
4999700. -/
def changedUser : UserState := { baseUser with passwordChangedAt := some 4999700 }

/-- C6, counterexample. The claim says every session token whose
issued-at time precedes the most recent password change is rejected at
verify time. The stored change time is millisecond 4999700; a token with
iat 4999 was issued at millisecond 4999000, before the change, yet
`protect` grants the request, because `changedPasswordAfter` compares
whole seconds (4999 < 4999700 / 1000 = 4999 is false). -/
theorem claim_C6_counterexample :
    4999 * 1000 < 4999700 ∧
    protect (fun _ => some changedUser) (.valid ⟨1, 4999⟩) = .grant changedUser := by
  exact ⟨by decide, by decide⟩

/-- C6, amended. For an existing active account with `passwordChangedAt`
set, a token with valid signature and unexpired lifetime is rejected with
the recently-changed 401 exactly when its iat second is strictly below
the whole-second part of `passwordChangedAt`; a token whose iat second
equals or exceeds that value is accepted, even if the precise change
instant lies later within the same second. -/
theorem claim_C6 (lookupById : Nat → Option UserState) (p : JwtPayload)
    (u : UserState) (c : Nat)
    (hl : lookupById p.userId = some u) (ha : u.isActive = true)
    (hc : u.passwordChangedAt = some c) :
    (p.iat < c / 1000 → protect lookupById (.valid p) = .reject 401 recentlyChangedMsg) ∧
    (c / 1000 ≤ p.iat → protect lookupById (.valid p) = .grant u) := by
  constructor
  · intro h
    simp [protect, hl, ha, changedPasswordAfter, hc, h]
  · intro h
    simp [protect, hl, ha, changedPasswordAfter, hc]
    omega

/-- Witness for C6: a token from second 4000 is rejected against the
change at millisecond 4999700, while a token from second 4999 is
accepted. -/
theorem claim_C6_witness :
    protect (fun _ => some changedUser) (.valid ⟨1, 4000⟩) = .reject 401 recentlyChangedMsg ∧
    protect (fun _ => some changedUser) (.valid ⟨1, 4999⟩) = .grant changedUser :=
  ⟨(claim_C6 (fun _ => some changedUser) ⟨1, 4000⟩ changedUser 4999700
      rfl rfl rfl).1 (by decide),
   (claim_C6 (fun _ => some changedUser) ⟨1, 4999⟩ changedUser 4999700
      rfl rfl rfl).2 (by decide)⟩

/-- Auxiliary: hex encoding doubles the length, so 32 random bytes give a
64-character plaintext token. -/
theorem bytesToHex_length (bs : List Nat) : (bytesToHex bs).length = 2 * bs.length := by
  induction bs with
  | nil => rfl
  | cons b tl ih =>
    simp [bytesToHex, byteToHex, String.length] at ih ⊢
    omega

/-- C7, confirmed. With the 32 bytes handed over by the randomness
collaborator, `createPasswordResetToken` returns a 64-hex-character
plaintext, persists only its sha256 on the record, and stores an expiry
of now plus the configured number of minutes (the documented
configuration value 10 gives now plus 10 minutes);
`createEmailVerificationToken` persists the same way with a hard-coded
expiry of now plus 24 hours. -/
theorem claim_C7 (sha256 : String → String) (randomBytes : List Nat)
    (resetExpireMinutes now : Nat) (u : UserState)
    (hlen : randomBytes.length = 32) :
    ((createPasswordResetToken sha256 randomBytes resetExpireMinutes now u).1.length = 64 ∧
     (createPasswordResetToken sha256 randomBytes resetExpireMinutes now u).2.passwordResetToken
       = some (sha256 (createPasswordResetToken sha256 randomBytes resetExpireMinutes now u).1) ∧
     (createPasswordResetToken sha256 randomBytes resetExpireMinutes now u).2.passwordResetExpire
       = some (now + resetExpireMinutes * 60 * 1000) ∧
     (resetExpireMinutes = 10 →
       (createPasswordResetToken sha256 randomBytes resetExpireMinutes now u).2.passwordResetExpire
         = some (now + 10 * 60 * 1000))) ∧
    ((createEmailVerificationToken sha256 randomBytes now u).1.length = 64 ∧
     (createEmailVerificationToken sha256 randomBytes now u).2.emailVerificationToken
       = some (sha256 (createEmailVerificationToken sha256 randomBytes now u).1) ∧
     (createEmailVerificationToken sha256 randomBytes now u).2.emailVerificationExpire
       = some (now + 24 * 60 * 60 * 1000)) := by
  have hhex : (bytesToHex randomBytes).length = 64 := by
    rw [bytesToHex_length, hlen]
  refine ⟨⟨hhex, rfl, rfl, ?_⟩, ⟨hhex, rfl, rfl⟩⟩
  intro h
  subst h
  rfl

/-- Witness for C7 with 32 zero bytes and the documented 10-minute
configuration. -/
theorem claim_C7_witness :
    (createPasswordResetToken tagHash (List.replicate 32 0) 10 0 baseUser).1.length = 64 ∧
    (createPasswordResetToken tagHash (List.replicate 32 0) 10 0 baseUser).2.passwordResetExpire
      = some (0 + 10 * 60 * 1000) :=
  ⟨(claim_C7 tagHash (List.replicate 32 0) 10 0 baseUser (by decide)).1.1,
   (claim_C7 tagHash (List.replicate 32 0) 10 0 baseUser (by decide)).1.2.2.1⟩

/-- C8, confirmed against the spec model of the hasher. For every
plaintext, verification against a malformed stored digest returns false;
the embedded `comparePassword` is a total function into booleans, so no
exception is possible. -/
theorem claim_C8 (wellFormed : String → Bool) (digestMatch : String → String → Bool)
    (candidate stored : String) (h : wellFormed stored = false) :
    comparePassword wellFormed digestMatch candidate stored = false := by
  simp [comparePassword, h]

/-- Witness for C8: a digest rejected by the well-formedness check
verifies to false even though the match collaborator would accept
everything. -/
theorem claim_C8_witness :
    comparePassword (fun _ => false) (fun _ _ => true) ("pw") ("notadigest") = false :=
  claim_C8 (fun _ => false) (fun _ _ => true) ("pw") ("notadigest") rfl

/-- C9, confirmed. A request bearing a token that passes signature and
expiry verification, but whose account has the active flag cleared, is
rejected by `protect` with the deactivation 401, and is never granted:
no protected operation runs on behalf of a deactivated account. -/
theorem claim_C9 (lookupById : Nat → Option UserState) (p : JwtPayload)
    (u : UserState)
    (hl : lookupById p.userId = some u) (hin : u.isActive = false) :
    protect lookupById (.valid p) = .reject 401 deactivatedMsg ∧
    ∀ v, protect lookupById (.valid p) ≠ .grant v := by
  have hmain : protect lookupById (.valid p) = .reject 401 deactivatedMsg := by
    simp [protect, hl, hin]
  refine ⟨hmain, fun v hv => ?_⟩
  rw [hmain] at hv
  exact ProtectResult.noConfusion hv

/-- A concrete deactivated account. -/
def inactiveUser : UserState := { baseUser with isActive := false }

/-- Witness for C9 at a concrete deactivated account. -/
theorem claim_C9_witness :
    protect (fun _ => some inactiveUser) (.valid ⟨2, 123⟩) = .reject 401 deactivatedMsg :=
  (claim_C9 (fun _ => some inactiveUser) ⟨2, 123⟩ inactiveUser rfl rfl).1

/-- C10, counterexample. The claim says every token issued before the
password change is invalidated. The change is saved at millisecond
5000000, so `passwordChangedAt` is recorded as 4999000; a token issued at
millisecond 4999500 — strictly before the change — carries iat 4999, and
`changedPasswordAfter` accepts it (4999 < 4999000 / 1000 = 4999 is
false), so it is not invalidated. -/
theorem claim_C10_counterexample :
    4999500 < 5000000 ∧
    changedPasswordAfter (updatePasswordSave (fun s => s) 5000000 ("NewPw1!") baseUser)
      ((generateAuthToken 4999500 1).iat) = false := by
  exact ⟨by decide, by decide⟩

/-- C10, amended. Saving a password change at time `saveNow` records
`passwordChangedAt = saveNow - 1000`; the fresh token issued at or after
the save passes `changedPasswordAfter` and stays valid; and a token is
invalidated exactly when its iat second is strictly below the
whole-second part of the save time minus one — tokens issued within
about the last second before the change (the tolerance that the
one-second subtraction deliberately creates, widened by whole-second
truncation) still pass. -/
theorem claim_C10 (hashPw : String → String) (saveNow issueMs userId : Nat)
    (newPassword : String) (u : UserState) (h1000 : 1000 ≤ saveNow) :
    (updatePasswordSave hashPw saveNow newPassword u).passwordChangedAt
      = some (saveNow - 1000) ∧
    (saveNow ≤ issueMs →
      changedPasswordAfter (updatePasswordSave hashPw saveNow newPassword u)
        ((generateAuthToken issueMs userId).iat) = false) ∧
    (∀ iat, changedPasswordAfter (updatePasswordSave hashPw saveNow newPassword u) iat = true
        ↔ iat < saveNow / 1000 - 1) := by
  refine ⟨rfl, ?_, ?_⟩
  · intro h
    simp [changedPasswordAfter, updatePasswordSave, generateAuthToken]
    omega
  · intro iat
    simp [changedPasswordAfter, updatePasswordSave]
    omega

/-- Witness for C10: a change saved at millisecond 5000000 records
`passwordChangedAt` 4999000, and the fresh token from millisecond
5000200 passes the check. -/
theorem claim_C10_witness :
    (updatePasswordSave (fun s => s) 5000000 ("NewPw1!") baseUser).passwordChangedAt
      = some (5000000 - 1000) ∧
    changedPasswordAfter (updatePasswordSave (fun s => s) 5000000 ("NewPw1!") baseUser)
      ((generateAuthToken 5000200 1).iat) = false :=
  ⟨(claim_C10 (fun s => s) 5000000 5000200 1 ("NewPw1!") baseUser (by decide)).1,
   (claim_C10 (fun s => s) 5000000 5000200 1 ("NewPw1!") baseUser (by decide)).2.1 (by decide)⟩

end AirdropAuth
